import Mathlib

/-!
Shallow embedding of the CRM data-access layer of this repository:
`src/crm_system/backend/database/db_config.py` (connection manager,
`init_database`) and `src/crm_system/backend/database/models.py`
(`BaseModel._execute_query` and the User / Contact / Task / ReferenceData
repositories).  MySQL tables are modelled as lists of typed rows (row types
taken field-by-field from the DDL in `init_database`), a connection as a pair
of a committed and a working database state, and each SQL statement of the
source as a function from a database state to an `Except`-wrapped result.
-/

deriving instance DecidableEq for Except

namespace CRM

/-- Database-engine error, modelling `mysql.connector.Error` as raised by
statement execution (unknown table, unique-key violation, foreign-key
violation, unknown column, invalid enum value). -/
inductive DBErr where
  | noSuchTable (t : String)
  | duplicateEntry (table key : String)
  | fkViolation (table col : String)
  | unknownColumn (col : String)
  | invalidEnum (col val : String)
  | connectFailed
  deriving DecidableEq

/-- Python-level exception escaping the data layer.  `dbError` is a bare
re-raised `mysql.connector.Error` (the source's `raise` statements re-raise
the original exception unchanged); `queryError` and `schemaError` are the
typed wrappers named by the specification's error taxonomy — no such classes
exist anywhere in the source; `indexError` models `result[0]` on an empty
list. -/
inductive PyExc where
  | dbError (e : DBErr)
  | queryError (cause : DBErr)
  | schemaError (cause : DBErr)
  | indexError
  deriving DecidableEq

/-- Row of the `roles` table (db_config.py lines 54-62). -/
structure RoleRow where
  role_id : Nat
  role_name : String
  description : Option String
  created_at : Nat
  updated_at : Nat
  deriving DecidableEq

/-- Row of the `users` table (db_config.py lines 64-78).  Note the table has
no first_name/last_name columns. -/
structure UserRow where
  user_id : Nat
  username : String
  password_hash : String
  email : String
  role_id : Option Nat
  manager_id : Option Nat
  is_active : Bool
  created_at : Nat
  updated_at : Nat
  deriving DecidableEq

/-- Row of the `contacts` table (db_config.py lines 80-94). -/
structure ContactRow where
  contact_id : Nat
  first_name : String
  last_name : String
  email : Option String
  phone : Option String
  company : Option String
  assigned_to : Option Nat
  notes : Option String
  created_at : Nat
  updated_at : Nat
  deriving DecidableEq

/-- Row of the `task_status` table (db_config.py lines 96-103). -/
structure StatusRow where
  status_id : Nat
  status_name : String
  description : Option String
  created_at : Nat
  deriving DecidableEq

/-- Row of the `tasks` table (db_config.py lines 105-121).  `assigned_to`,
`assigned_by`, `due_date` and `status_id` are nullable columns. -/
structure TaskRow where
  task_id : Nat
  title : String
  description : Option String
  assigned_to : Option Nat
  assigned_by : Option Nat
  due_date : Option Nat
  status_id : Option Nat
  priority : String
  created_at : Nat
  updated_at : Nat
  deriving DecidableEq

/-- A table: its rows in storage order plus the AUTO_INCREMENT counter. -/
structure Table (α : Type) where
  rows : List α
  nextId : Nat
  deriving DecidableEq

/-- The database state.  A table that has not been created yet is `none`;
`lastInsertId` is the session's `LAST_INSERT_ID()` value; `now` is the value
`CURRENT_TIMESTAMP` evaluates to (ambient time, not advanced by the layer). -/
structure Db where
  roles : Option (Table RoleRow)
  users : Option (Table UserRow)
  contacts : Option (Table ContactRow)
  task_status : Option (Table StatusRow)
  tasks : Option (Table TaskRow)
  lastInsertId : Nat
  now : Nat
  deriving DecidableEq

/-- A live connection: the committed database state and the working state of
the current implicit transaction. -/
structure Conn where
  committed : Db
  working : Db
  deriving DecidableEq

/-- Embedding of `BaseModel._execute_query` (models.py lines 16-31): run the
statement against the connection's working state; if `fetch`, return the rows
and do not commit; otherwise commit and return no rows; on a database error,
roll back (working state reset to the committed state) and re-raise the
original error bare. -/
def execute_query {ρ : Type} (stmt : Db → Except DBErr (List ρ × Db)) (fetch : Bool)
    (c : Conn) : Except PyExc (Option (List ρ)) × Conn :=
  match stmt c.working with
  | .error e => (.error (.dbError e), ⟨c.committed, c.committed⟩)
  | .ok (rows, db) =>
    if fetch then (.ok (some rows), ⟨c.committed, db⟩)
    else (.ok none, ⟨db, db⟩)

/-- Run a list of cursor statements in sequence on a database state, stopping
at the first error (the body of the `try` block of `init_database`). -/
def runSteps : List (Db → Except DBErr Db) → Db → Except DBErr Db
  | [], db => .ok db
  | s :: rest, db =>
    match s db with
    | .error e => .error e
    | .ok db2 => runSteps rest db2

/-- Transaction structure of `init_database` (db_config.py lines 52-150): run
all steps on the working state, commit once on success, and on any failure
roll back and re-raise the original error bare. -/
def transact (steps : List (Db → Except DBErr Db)) (c : Conn) :
    Except PyExc Unit × Conn :=
  match runSteps steps c.working with
  | .error e => (.error (.dbError e), ⟨c.committed, c.committed⟩)
  | .ok db => (.ok (), ⟨db, db⟩)

/-- CREATE TABLE IF NOT EXISTS roles (db_config.py lines 54-62). -/
def createRolesTable (db : Db) : Except DBErr Db :=
  match db.roles with
  | some _ => .ok db
  | none => .ok { db with roles := some ⟨[], 1⟩ }

/-- CREATE TABLE IF NOT EXISTS users (db_config.py lines 64-78); its foreign
key references `roles`, which must exist. -/
def createUsersTable (db : Db) : Except DBErr Db :=
  match db.users with
  | some _ => .ok db
  | none =>
    match db.roles with
    | none => .error (.noSuchTable "roles")
    | some _ => .ok { db with users := some ⟨[], 1⟩ }

/-- CREATE TABLE IF NOT EXISTS contacts (db_config.py lines 80-94); foreign
key references `users`. -/
def createContactsTable (db : Db) : Except DBErr Db :=
  match db.contacts with
  | some _ => .ok db
  | none =>
    match db.users with
    | none => .error (.noSuchTable "users")
    | some _ => .ok { db with contacts := some ⟨[], 1⟩ }

/-- CREATE TABLE IF NOT EXISTS task_status (db_config.py lines 96-103). -/
def createTaskStatusTable (db : Db) : Except DBErr Db :=
  match db.task_status with
  | some _ => .ok db
  | none => .ok { db with task_status := some ⟨[], 1⟩ }

/-- CREATE TABLE IF NOT EXISTS tasks (db_config.py lines 105-121); foreign
keys reference `users` and `task_status`. -/
def createTasksTable (db : Db) : Except DBErr Db :=
  match db.tasks with
  | some _ => .ok db
  | none =>
    match db.users, db.task_status with
    | none, _ => .error (.noSuchTable "users")
    | _, none => .error (.noSuchTable "task_status")
    | some _, some _ => .ok { db with tasks := some ⟨[], 1⟩ }

/-- One row of the multi-row `INSERT IGNORE INTO roles` seed: skipped when a
row with the same unique `role_name` already exists; otherwise appended with
the next AUTO_INCREMENT id.  The second component tracks the id of the first
row actually inserted by the statement (which is what `LAST_INSERT_ID()`
reports after a multi-row insert). -/
def insRoleIgnore (now : Nat) (name desc : String) :
    Table RoleRow × Option Nat → Table RoleRow × Option Nat
  | (t, first) =>
    if t.rows.any (fun r => r.role_name == name) then (t, first)
    else (⟨t.rows ++ [⟨t.nextId, name, some desc, now, now⟩], t.nextId + 1⟩,
          first.orElse (fun _ => some t.nextId))

/-- One row of the multi-row `INSERT IGNORE INTO task_status` seed. -/
def insStatusIgnore (now : Nat) (name desc : String) :
    Table StatusRow × Option Nat → Table StatusRow × Option Nat
  | (t, first) =>
    if t.rows.any (fun s => s.status_name == name) then (t, first)
    else (⟨t.rows ++ [⟨t.nextId, name, some desc, now⟩], t.nextId + 1⟩,
          first.orElse (fun _ => some t.nextId))

/-- The three seeded roles (db_config.py lines 124-130). -/
def seedRolesList : List (String × String) :=
  [("admin", "System administrator with full access"),
   ("manager", "Team manager with reporting and task assignment capabilities"),
   ("employee", "Regular employee with basic access")]

/-- The four seeded task statuses (db_config.py lines 133-140). -/
def seedStatusesList : List (String × String) :=
  [("not_started", "Task has not been started"),
   ("in_progress", "Task is currently being worked on"),
   ("completed", "Task has been completed"),
   ("on_hold", "Task is temporarily on hold")]

/-- INSERT IGNORE INTO roles ... (db_config.py lines 124-130). -/
def seedRoles (db : Db) : Except DBErr Db :=
  match db.roles with
  | none => .error (.noSuchTable "roles")
  | some t =>
    let p := seedRolesList.foldl (fun acc q => insRoleIgnore db.now q.1 q.2 acc) (t, none)
    .ok { db with roles := some p.1, lastInsertId := p.2.getD db.lastInsertId }

/-- INSERT IGNORE INTO task_status ... (db_config.py lines 133-140). -/
def seedStatuses (db : Db) : Except DBErr Db :=
  match db.task_status with
  | none => .error (.noSuchTable "task_status")
  | some t =>
    let p := seedStatusesList.foldl (fun acc q => insStatusIgnore db.now q.1 q.2 acc) (t, none)
    .ok { db with task_status := some p.1, lastInsertId := p.2.getD db.lastInsertId }

/-- The seven cursor statements issued by `init_database`, in source order. -/
def initSteps : List (Db → Except DBErr Db) :=
  [createRolesTable, createUsersTable, createContactsTable, createTaskStatusTable,
   createTasksTable, seedRoles, seedStatuses]

/-- Embedding of `init_database` (db_config.py lines 46-150). -/
def init_database (c : Conn) : Except PyExc Unit × Conn :=
  transact initSteps c

/-- A completely fresh database: no tables yet. -/
def emptyDb : Db :=
  { roles := none, users := none, contacts := none, task_status := none,
    tasks := none, lastInsertId := 0, now := 0 }

/-- Modelled from the spec: the `bcrypt` library is external to this
repository.  Per the spec, `createUser` "hashes the plaintext password with a
salted one-way hash before storage" and "verification re-hashes the candidate
and compares, never decrypts".  A bcrypt salt is a 29-character string and the
produced hash starts with that salt; `hashpw` is modelled as a hash that is
injective in the password for a fixed salt. -/
def bcrypt_hashpw (password salt : String) : String :=
  salt ++ password

/-- Modelled from the spec: `bcrypt.checkpw` extracts the 29-character salt
prefix from the stored hash, re-hashes the candidate password with it, and
compares the result with the stored hash. -/
def bcrypt_extractSalt (stored : String) : String :=
  ⟨stored.data.take 29⟩

def bcrypt_checkpw (password stored : String) : Bool :=
  decide (bcrypt_hashpw password (bcrypt_extractSalt stored) = stored)

/-- Foreign-key check for a nullable reference column: NULL always passes;
a non-NULL value must match the key of some row of the referenced table. -/
def fkOk {α : Type} (ref : Option Nat) (tbl : Option (Table α)) (key : α → Nat) : Bool :=
  match ref with
  | none => true
  | some i =>
    match tbl with
    | none => false
    | some t => t.rows.any (fun r => key r == i)

/-- INSERT INTO users (username, password_hash, email, role_id, manager_id)
VALUES (...) (models.py lines 40-44) as a cursor statement: unique checks on
username and email, foreign-key checks on role_id (roles) and manager_id
(users, self-referential), then append a row with the next AUTO_INCREMENT id;
is_active defaults to TRUE and the timestamps to CURRENT_TIMESTAMP. -/
def insertUserStmt (username password_hash email : String)
    (role_id manager_id : Option Nat) (db : Db) : Except DBErr (List Unit × Db) :=
  match db.users with
  | none => .error (.noSuchTable "users")
  | some t =>
    if t.rows.any (fun u => u.username == username) then
      .error (.duplicateEntry "users" "username")
    else if t.rows.any (fun u => u.email == email) then
      .error (.duplicateEntry "users" "email")
    else if !(fkOk role_id db.roles RoleRow.role_id) then
      .error (.fkViolation "users" "role_id")
    else if !(fkOk manager_id db.users UserRow.user_id) then
      .error (.fkViolation "users" "manager_id")
    else
      .ok ([], { db with
        users := some ⟨t.rows ++
          [⟨t.nextId, username, password_hash, email, role_id, manager_id,
            true, db.now, db.now⟩], t.nextId + 1⟩,
        lastInsertId := t.nextId })

/-- SELECT LAST_INSERT_ID() (models.py line 49 and its analogues): one row
holding the session's last-insert id; no state change. -/
def lastInsertIdStmt (db : Db) : Except DBErr (List Nat × Db) :=
  .ok ([db.lastInsertId], db)

/-- Python subscript `result[0]` applied to the value `_execute_query`
returned: IndexError on an empty list, and a runtime error as well if the
value is `None` (subscripting None). -/
def pyIndex0 {ρ : Type} : Option (List ρ) → Except PyExc ρ
  | some (x :: _) => .ok x
  | some [] => .error .indexError
  | none => .error .indexError

/-- `User.create_user` (models.py lines 34-52): hash the password with a
fresh bcrypt salt (the salt is an input of the model), insert, then read
LAST_INSERT_ID(); a database error is logged and re-raised unchanged. -/
def create_user (username password email : String) (role_id : Nat)
    (manager_id : Option Nat) (salt : String) (c : Conn) : Except PyExc Nat × Conn :=
  let password_hash := bcrypt_hashpw password salt
  match execute_query
      (insertUserStmt username password_hash email (some role_id) manager_id)
      false c with
  | (.error e, c1) => (.error e, c1)
  | (.ok _, c1) =>
    match execute_query lastInsertIdStmt true c1 with
    | (.error e, c2) => (.error e, c2)
    | (.ok r, c2) =>
      match pyIndex0 r with
      | .error e => (.error e, c2)
      | .ok i => (.ok i, c2)

/-- SELECT password_hash FROM users WHERE username = %s (models.py line 56). -/
def selectPasswordHash (username : String) (db : Db) :
    Except DBErr (List String × Db) :=
  match db.users with
  | none => .error (.noSuchTable "users")
  | some t =>
    .ok ((t.rows.filter (fun u => u.username == username)).map UserRow.password_hash, db)

/-- `User.verify_password` (models.py lines 54-62): fetch the stored hash for
the username; `if result:` is false for an empty result, in which case the
method returns False instead of raising. -/
def verify_password (username password : String) (c : Conn) :
    Except PyExc Bool × Conn :=
  match execute_query (selectPasswordHash username) true c with
  | (.error e, c1) => (.error e, c1)
  | (.ok none, c1) => (.ok false, c1)
  | (.ok (some []), c1) => (.ok false, c1)
  | (.ok (some (h :: _)), c1) => (.ok (bcrypt_checkpw password h), c1)

/-- Result row of the `get_user` join: every users column plus `role_name`. -/
structure UserRecord where
  user_id : Nat
  username : String
  password_hash : String
  email : String
  role_id : Option Nat
  manager_id : Option Nat
  is_active : Bool
  created_at : Nat
  updated_at : Nat
  role_name : String
  deriving DecidableEq

/-- SELECT u.*, r.role_name FROM users u JOIN roles r ON u.role_id = r.role_id
WHERE u.user_id = %s (models.py lines 66-71): the inner join produces one
output row per matching (user, role) pair and silently drops a user whose
role_id is NULL or matches no role row. -/
def getUserStmt (uid : Nat) (db : Db) : Except DBErr (List UserRecord × Db) :=
  match db.users, db.roles with
  | none, _ => .error (.noSuchTable "users")
  | _, none => .error (.noSuchTable "roles")
  | some ut, some rt =>
    .ok ((ut.rows.filter (fun u => u.user_id == uid)).flatMap (fun u =>
      (rt.rows.filter (fun r => u.role_id == some r.role_id)).map (fun r =>
        ⟨u.user_id, u.username, u.password_hash, u.email, u.role_id,
         u.manager_id, u.is_active, u.created_at, u.updated_at, r.role_name⟩)), db)

/-- `User.get_user` (models.py lines 64-73): `result[0] if result else None`. -/
def get_user (uid : Nat) (c : Conn) : Except PyExc (Option UserRecord) × Conn :=
  match execute_query (getUserStmt uid) true c with
  | (.error e, c1) => (.error e, c1)
  | (.ok r, c1) =>
    (.ok (match r with
          | some (x :: _) => some x
          | _ => none), c1)

/-- The `data` dict passed to `Contact.update_contact`: `first_name` and
`last_name` are accessed with `data[...]` (required keys), the rest with
`data.get(...)` (absent means None). -/
structure ContactData where
  first_name : String
  last_name : String
  email : Option String
  phone : Option String
  company : Option String
  assigned_to : Option Nat
  notes : Option String
  deriving DecidableEq

/-- UPDATE contacts SET ... , updated_at = CURRENT_TIMESTAMP WHERE
contact_id = %s (models.py lines 120-131): full-row overwrite of every
matching row; the foreign key on assigned_to is checked for rows actually
updated, so updating zero rows always succeeds. -/
def applyContactUpdate (contact_id : Nat) (d : ContactData) (now : Nat)
    (r : ContactRow) : ContactRow :=
  if r.contact_id == contact_id then
    { r with first_name := d.first_name, last_name := d.last_name,
             email := d.email, phone := d.phone, company := d.company,
             assigned_to := d.assigned_to, notes := d.notes,
             updated_at := now }
  else r

def updateContactStmt (contact_id : Nat) (d : ContactData) (db : Db) :
    Except DBErr (List Unit × Db) :=
  match db.contacts with
  | none => .error (.noSuchTable "contacts")
  | some t =>
    if t.rows.any (fun r => r.contact_id == contact_id)
        && !(fkOk d.assigned_to db.users UserRow.user_id) then
      .error (.fkViolation "contacts" "assigned_to")
    else
      .ok ([], { db with
        contacts := some ⟨t.rows.map (applyContactUpdate contact_id d db.now),
                          t.nextId⟩ })

/-- `Contact.update_contact` (models.py lines 118-144): run the update and
return True. -/
def update_contact (contact_id : Nat) (d : ContactData) (c : Conn) :
    Except PyExc Bool × Conn :=
  match execute_query (updateContactStmt contact_id d) false c with
  | (.error e, c1) => (.error e, c1)
  | (.ok _, c1) => (.ok true, c1)

/-- The `data` dict passed to `Task.create_task`: title, assigned_to,
assigned_by, due_date and status_id are required keys; description and
priority are read with `data.get`. -/
structure TaskData where
  title : String
  description : Option String
  assigned_to : Nat
  assigned_by : Nat
  due_date : Nat
  status_id : Nat
  priority : Option String
  deriving DecidableEq

/-- The values of the `priority` ENUM column (db_config.py line 114). -/
def priorityEnum : List String := ["low", "medium", "high"]

/-- INSERT INTO tasks (title, description, assigned_to, assigned_by,
due_date, status_id, priority) VALUES (...) (models.py lines 149-153). -/
def insertTaskStmt (title : String) (description : Option String)
    (assigned_to assigned_by due_date status_id : Nat) (priority : String)
    (db : Db) : Except DBErr (List Unit × Db) :=
  match db.tasks with
  | none => .error (.noSuchTable "tasks")
  | some t =>
    if !(priorityEnum.contains priority) then
      .error (.invalidEnum "priority" priority)
    else if !(fkOk (some assigned_to) db.users UserRow.user_id) then
      .error (.fkViolation "tasks" "assigned_to")
    else if !(fkOk (some assigned_by) db.users UserRow.user_id) then
      .error (.fkViolation "tasks" "assigned_by")
    else if !(fkOk (some status_id) db.task_status StatusRow.status_id) then
      .error (.fkViolation "tasks" "status_id")
    else
      .ok ([], { db with
        tasks := some ⟨t.rows ++
          [⟨t.nextId, title, description, some assigned_to, some assigned_by,
            some due_date, some status_id, priority, db.now, db.now⟩],
          t.nextId + 1⟩,
        lastInsertId := t.nextId })

/-- `Task.create_task` (models.py lines 147-165): `data.get('priority',
'medium')` supplies the default priority; insert, then read
LAST_INSERT_ID(). -/
def create_task (d : TaskData) (c : Conn) : Except PyExc Nat × Conn :=
  match execute_query
      (insertTaskStmt d.title d.description d.assigned_to d.assigned_by
        d.due_date d.status_id (d.priority.getD "medium")) false c with
  | (.error e, c1) => (.error e, c1)
  | (.ok _, c1) =>
    match execute_query lastInsertIdStmt true c1 with
    | (.error e, c2) => (.error e, c2)
    | (.ok r, c2) =>
      match pyIndex0 r with
      | .error e => (.error e, c2)
      | .ok i => (.ok i, c2)

/-- UPDATE tasks SET status_id = %s, updated_at = CURRENT_TIMESTAMP WHERE
task_id = %s (models.py lines 208-213); the status foreign key is checked for
rows actually updated, so updating zero rows always succeeds. -/
def applyTaskStatusUpdate (task_id status_id : Nat) (now : Nat)
    (r : TaskRow) : TaskRow :=
  if r.task_id == task_id then
    { r with status_id := some status_id, updated_at := now }
  else r

def updateTaskStatusStmt (task_id status_id : Nat) (db : Db) :
    Except DBErr (List Unit × Db) :=
  match db.tasks with
  | none => .error (.noSuchTable "tasks")
  | some t =>
    if t.rows.any (fun r => r.task_id == task_id)
        && !(fkOk (some status_id) db.task_status StatusRow.status_id) then
      .error (.fkViolation "tasks" "status_id")
    else
      .ok ([], { db with
        tasks := some ⟨t.rows.map (applyTaskStatusUpdate task_id status_id db.now),
                       t.nextId⟩ })

/-- `Task.update_task_status` (models.py lines 206-215): run the update and
return True. -/
def update_task_status (task_id status_id : Nat) (c : Conn) :
    Except PyExc Bool × Conn :=
  match execute_query (updateTaskStatusStmt task_id status_id) false c with
  | (.error e, c1) => (.error e, c1)
  | (.ok _, c1) => (.ok true, c1)

/-- INSERT INTO roles (role_name, description) VALUES (%s, %s) (models.py
line 228): a plain insert — a duplicate unique role_name is an error, not a
no-op. -/
def insertRoleStmt (role_name description : String) (db : Db) :
    Except DBErr (List Unit × Db) :=
  match db.roles with
  | none => .error (.noSuchTable "roles")
  | some t =>
    if t.rows.any (fun r => r.role_name == role_name) then
      .error (.duplicateEntry "roles" "role_name")
    else
      .ok ([], { db with
        roles := some ⟨t.rows ++
          [⟨t.nextId, role_name, some description, db.now, db.now⟩], t.nextId + 1⟩,
        lastInsertId := t.nextId })

/-- `ReferenceData.create_role` (models.py lines 226-230). -/
def create_role (role_name description : String) (c : Conn) :
    Except PyExc Nat × Conn :=
  match execute_query (insertRoleStmt role_name description) false c with
  | (.error e, c1) => (.error e, c1)
  | (.ok _, c1) =>
    match execute_query lastInsertIdStmt true c1 with
    | (.error e, c2) => (.error e, c2)
    | (.ok r, c2) =>
      match pyIndex0 r with
      | .error e => (.error e, c2)
      | .ok i => (.ok i, c2)

/-- INSERT INTO task_status (status_name, description) VALUES (%s, %s)
(models.py line 234): a plain insert — a duplicate unique status_name is an
error, not a no-op. -/
def insertStatusStmt (status_name description : String) (db : Db) :
    Except DBErr (List Unit × Db) :=
  match db.task_status with
  | none => .error (.noSuchTable "task_status")
  | some t =>
    if t.rows.any (fun s => s.status_name == status_name) then
      .error (.duplicateEntry "task_status" "status_name")
    else
      .ok ([], { db with
        task_status := some ⟨t.rows ++
          [⟨t.nextId, status_name, some description, db.now⟩], t.nextId + 1⟩,
        lastInsertId := t.nextId })

/-- `ReferenceData.create_task_status` (models.py lines 232-236). -/
def create_task_status (status_name description : String) (c : Conn) :
    Except PyExc Nat × Conn :=
  match execute_query (insertStatusStmt status_name description) false c with
  | (.error e, c1) => (.error e, c1)
  | (.ok _, c1) =>
    match execute_query lastInsertIdStmt true c1 with
    | (.error e, c2) => (.error e, c2)
    | (.ok r, c2) =>
      match pyIndex0 r with
      | .error e => (.error e, c2)
      | .ok i => (.ok i, c2)

/-- The column names of the `users` table as created by `init_database`
(db_config.py lines 64-78). -/
def usersColumns : List String :=
  ["user_id", "username", "password_hash", "email", "role_id", "manager_id",
   "is_active", "created_at", "updated_at"]

/-- Resolve the column names a statement references against the columns a
table actually has; MySQL rejects the whole statement with an unknown-column
error when one does not resolve. -/
def resolveCols (referenced tableCols : List String) : Except DBErr Unit :=
  match referenced.find? (fun col => !(tableCols.contains col)) with
  | some col => .error (.unknownColumn col)
  | none => .ok ()

/-- Look up a users column on a row by name (values stringified); `none` for
a column the users table does not have. -/
def UserRow.getCol (u : UserRow) : String → Option String
  | "user_id" => some (toString u.user_id)
  | "username" => some u.username
  | "password_hash" => some u.password_hash
  | "email" => some u.email
  | "role_id" => some (toString u.role_id)
  | "manager_id" => some (toString u.manager_id)
  | "is_active" => some (toString u.is_active)
  | "created_at" => some (toString u.created_at)
  | "updated_at" => some (toString u.updated_at)
  | _ => none

/-- CONCAT(u.first_name, ' ', u.last_name) evaluated on a users row; the
referenced columns do not exist on the users table. -/
def userDisplayName (u : UserRow) : Except DBErr String :=
  match u.getCol "first_name", u.getCol "last_name" with
  | some f, some l => .ok (f ++ " " ++ l)
  | none, _ => .error (.unknownColumn "first_name")
  | some _, none => .error (.unknownColumn "last_name")

/-- Result row shape of the `get_tasks_by_user` queries: every tasks column,
the joined status_name, and the joined display name (called
`assigned_to_name` in the as_manager query and `assigned_by_name`
otherwise). -/
structure TaskRecord where
  task_id : Nat
  title : String
  description : Option String
  assigned_to : Option Nat
  assigned_by : Option Nat
  due_date : Option Nat
  status_id : Option Nat
  priority : String
  created_at : Nat
  updated_at : Nat
  status_name : String
  display_name : String
  deriving DecidableEq

/-- ORDER BY t.due_date ASC comparison; SQL NULLs order first ascending. -/
def dueLe (a b : TaskRow) : Bool :=
  match a.due_date, b.due_date with
  | none, _ => true
  | some _, none => false
  | some x, some y => decide (x ≤ y)

/-- The two queries of `Task.get_tasks_by_user` (models.py lines 185-203):
filter tasks on assigned_by (as_manager) or assigned_to, order by ascending
due date, inner-join task_status and the other direction's user, and project
CONCAT(first_name, ' ', last_name) of the joined user — columns the users
table does not have, so the statement fails to resolve. -/
def getTasksByUserStmt (uid : Nat) (as_manager : Bool) (db : Db) :
    Except DBErr (List TaskRecord × Db) :=
  match db.tasks, db.task_status, db.users with
  | none, _, _ => .error (.noSuchTable "tasks")
  | _, none, _ => .error (.noSuchTable "task_status")
  | _, _, none => .error (.noSuchTable "users")
  | some tt, some st, some ut =>
    match resolveCols ["first_name", "last_name"] usersColumns with
    | .error e => .error e
    | .ok _ =>
      let matched := tt.rows.filter (fun t =>
        (if as_manager then t.assigned_by else t.assigned_to) == some uid)
      let ordered := matched.mergeSort dueLe
      let joined := ordered.flatMap (fun t =>
        (st.rows.filter (fun s => t.status_id == some s.status_id)).flatMap (fun s =>
          (ut.rows.filter (fun u =>
            (if as_manager then t.assigned_to else t.assigned_by)
              == some u.user_id)).map (fun u => (t, s, u))))
      match joined.mapM (fun p => (userDisplayName p.2.2).map (fun nm =>
          (⟨p.1.task_id, p.1.title, p.1.description, p.1.assigned_to,
            p.1.assigned_by, p.1.due_date, p.1.status_id, p.1.priority,
            p.1.created_at, p.1.updated_at, p.2.1.status_name, nm⟩ : TaskRecord))) with
      | .error e => .error e
      | .ok recs => .ok (recs, db)

/-- `Task.get_tasks_by_user` (models.py lines 182-204): the method body is a
single fetch through `_execute_query`, whose result it returns directly. -/
def get_tasks_by_user (uid : Nat) (as_manager : Bool) (c : Conn) :
    Except PyExc (Option (List TaskRecord)) × Conn :=
  execute_query (getTasksByUserStmt uid as_manager) true c

/-- State of the singleton `DatabaseConnection` object together with the pool
of driver handles ever opened in the process.  `self_connection` is the
object's `connection` attribute (a handle index, or None); `handles.getD i
false` is what `is_connected()` reports for handle `i` (a closed or dropped
handle reports false). -/
structure ConnWorld where
  self_connection : Option Nat
  handles : List Bool
  deriving DecidableEq

/-- The guard `self.connection and self.connection.is_connected()` used by
`connect`, `disconnect` and `get_connection` (db_config.py lines 23, 33, 42). -/
def ConnWorld.is_live (w : ConnWorld) : Bool :=
  match w.self_connection with
  | none => false
  | some h => w.handles.getD h false

/-- `DatabaseConnection.connect` (db_config.py lines 20-28): when the held
handle is absent or reports itself disconnected, call
`mysql.connector.connect` — `ok` says whether that driver call succeeds; on
failure the error is logged and re-raised and `self.connection` is left
unchanged.  A successful call opens a fresh connected handle. -/
def ConnWorld.connect (ok : Bool) (w : ConnWorld) : Except PyExc ConnWorld :=
  if w.is_live then .ok w
  else if ok then .ok ⟨some w.handles.length, w.handles ++ [true]⟩
  else .error (.dbError .connectFailed)

/-- `DatabaseConnection.disconnect` (db_config.py lines 30-38): close the
handle when it is live (it then reports itself disconnected);
`self.connection` keeps pointing at the closed handle. -/
def ConnWorld.disconnect (w : ConnWorld) : ConnWorld :=
  match w.self_connection with
  | none => w
  | some h =>
    if w.handles.getD h false then ⟨w.self_connection, w.handles.set h false⟩
    else w

/-- `DatabaseConnection.get_connection` (db_config.py lines 40-44): call
`connect()` when the handle is absent or stale, then return
`self.connection`. -/
def ConnWorld.get_connection (ok : Bool) (w : ConnWorld) :
    Except PyExc (Option Nat × ConnWorld) :=
  if w.is_live then .ok (w.self_connection, w)
  else
    match w.connect ok with
    | .error e => .error e
    | .ok w2 => .ok (w2.self_connection, w2)

/-- External event outside the layer's control: the engine drops handle `h`,
which starts reporting itself disconnected. -/
def ConnWorld.dropHandle (h : Nat) (w : ConnWorld) : ConnWorld :=
  ⟨w.self_connection, w.handles.set h false⟩

/-- The connection-manager invariant: every live handle is the one the
singleton currently holds (hence at most one live handle exists). -/
def ConnWorld.Inv (w : ConnWorld) : Prop :=
  ∀ i, w.handles.getD i false = true → w.self_connection = some i

/-- A process that has not opened any connection yet. -/
def ConnWorld.start : ConnWorld := ⟨none, []⟩

/-- Class-level state backing `DatabaseConnection.__new__` (db_config.py
lines 11-18): the `_instance` slot holds the id of the singleton object once
created; `allocated` counts `DatabaseConnection` objects ever allocated. -/
structure PyProcess where
  instSlot : Option Nat
  allocated : Nat
  deriving DecidableEq

/-- `DatabaseConnection()` construction through `__new__`: allocate an object
and store it only when `_instance` is None, otherwise return the stored
instance unchanged. -/
def dcNew (p : PyProcess) : Nat × PyProcess :=
  match p.instSlot with
  | some i => (i, p)
  | none => (p.allocated, ⟨some p.allocated, p.allocated + 1⟩)

/-- The connection after one run of `init_database` on a fresh database. -/
def seededConn : Conn := (init_database ⟨emptyDb, emptyDb⟩).2

/-- All three seeded role names are present in the table. -/
def rolesSeeded (t : Table RoleRow) : Bool :=
  seedRolesList.all (fun p => t.rows.any (fun r => r.role_name == p.1))

/-- All four seeded status names are present in the table. -/
def statusesSeeded (t : Table StatusRow) : Bool :=
  seedStatusesList.all (fun p => t.rows.any (fun s => s.status_name == p.1))

/-- The baseline `init_database` establishes: all five tables exist and the
reference rows are seeded. -/
def Initialized (db : Db) : Bool :=
  (match db.roles with | some t => rolesSeeded t | none => false) &&
  (match db.task_status with | some t => statusesSeeded t | none => false) &&
  db.users.isSome && db.contacts.isSome && db.tasks.isSome

/-- A seeded database in which user 1 exists but carries a NULL role
reference (the users DDL allows role_id to be NULL). -/
def nullRoleDb : Db :=
  { seededConn.committed with
    users := some ⟨[⟨1, "carl", "h", "c@x", none, none, true, 0, 0⟩], 2⟩ }

/-- A bcrypt salt value used for concrete witnesses (29 characters, as
`bcrypt.gensalt` produces). -/
def demoSalt : String := "$2b$12$abcdefghijklmnopqrstuv"

/-- A seeded database with two users (alice is user 1, bob user 2), built
through the repository operations themselves. -/
def twoUsersConn : Conn :=
  (create_user "bob" "pw2" "b@x" 1 none demoSalt
    ((create_user "alice" "pw" "a@x" 1 none demoSalt seededConn).2)).2

/-- A seeded database with two users and one task assigned to user 1 by
user 2, built through the repository operations themselves. -/
def taskDemoConn : Conn :=
  (create_task ⟨"t1", none, 1, 2, 5, 1, none⟩ twoUsersConn).2

/-! Theorems about the executor and the error taxonomy. -/

/-- Helper: a row-wise update map leaves a list unchanged when no row
satisfies the update's WHERE test. -/
theorem map_update_id {α : Type} (p : α → Bool) (f : α → α) :
    ∀ l : List α, l.all (fun a => !(p a)) = true →
      l.map (fun a => if p a then f a else a) = l := by
  intro l h
  induction l with
  | nil => rfl
  | cons x xs ih =>
    rw [List.all_cons, Bool.and_eq_true] at h
    have hx : p x = false := by
      cases hpx : p x
      · rfl
      · rw [hpx] at h
        exact absurd h.1 (by decide)
    simp [hx, ih h.2]

theorem applyContactUpdate_id (cid : Nat) (d : ContactData) (now : Nat)
    (l : List ContactRow) (h : l.all (fun r => !(r.contact_id == cid)) = true) :
    l.map (applyContactUpdate cid d now) = l :=
  map_update_id (fun r : ContactRow => r.contact_id == cid)
    (fun r =>
      { r with
        first_name := d.first_name
        last_name := d.last_name
        email := d.email
        phone := d.phone
        company := d.company
        assigned_to := d.assigned_to
        notes := d.notes
        updated_at := now })
    l h

theorem applyTaskStatusUpdate_id (tid sid : Nat) (now : Nat)
    (l : List TaskRow) (h : l.all (fun r => !(r.task_id == tid)) = true) :
    l.map (applyTaskStatusUpdate tid sid now) = l :=
  map_update_id (fun r : TaskRow => r.task_id == tid)
    (fun r =>
      { r with
        status_id := some sid
        updated_at := now })
    l h

/-- C3: Query executor contract — when `fetch` is true `_execute_query`
returns the result set as an ordered sequence of row mappings and issues no
commit (the committed state is untouched); when `fetch` is false it issues a
commit and returns no rows; and when the statement fails it rolls back, so
the state a subsequent read observes is exactly the committed state from
before the call — no partial row is committed. -/
theorem c3_execute_query_contract {ρ : Type}
    (stmt : Db → Except DBErr (List ρ × Db)) (c : Conn) :
    (∀ rows db2, stmt c.working = Except.ok (rows, db2) →
      execute_query stmt true c = (.ok (some rows), ⟨c.committed, db2⟩) ∧
      execute_query stmt false c = (.ok none, ⟨db2, db2⟩)) ∧
    (∀ e fetch, stmt c.working = Except.error e →
      execute_query stmt fetch c
        = (.error (.dbError e), ⟨c.committed, c.committed⟩)) := by
  refine ⟨fun rows db2 h => ⟨?_, ?_⟩, fun e fetch h => ?_⟩ <;>
    simp [execute_query, h]

theorem c3_execute_query_contract_witness :
    execute_query lastInsertIdStmt true ⟨emptyDb, emptyDb⟩
        = (.ok (some [0]), ⟨emptyDb, emptyDb⟩) ∧
    execute_query lastInsertIdStmt false ⟨emptyDb, emptyDb⟩
        = (.ok none, ⟨emptyDb, emptyDb⟩) ∧
    execute_query (selectPasswordHash "alice") false ⟨emptyDb, emptyDb⟩
        = (.error (.dbError (.noSuchTable "users")), ⟨emptyDb, emptyDb⟩) := by
  have h1 := c3_execute_query_contract lastInsertIdStmt ⟨emptyDb, emptyDb⟩
  have h2 := c3_execute_query_contract (selectPasswordHash "alice") ⟨emptyDb, emptyDb⟩
  exact ⟨(h1.1 [0] emptyDb rfl).1, (h1.1 [0] emptyDb rfl).2, h2.2 _ false rfl⟩

/-- C2 is false as stated: a failing statement in `_execute_query` is
re-raised as the original bare database error, not as a `QueryError` carrying
it — witnessed by a duplicate-key insert of role 'admin' on the seeded
database, and no `QueryError`/`SchemaError` wrapping ever occurs. -/
theorem c2_counterexample :
    (execute_query (insertRoleStmt "admin" "dup") false seededConn).1
        = .error (.dbError (.duplicateEntry "roles" "role_name")) ∧
    Except.error (PyExc.dbError (.duplicateEntry "roles" "role_name"))
        ≠ (Except.error (PyExc.queryError (.duplicateEntry "roles" "role_name")) :
            Except PyExc (Option (List Unit))) := by
  exact ⟨by decide, by decide⟩

/-- C2 (amended): every database-level failure is re-raised bare — any
statement failure in `_execute_query` is re-raised as the original database
error after a rollback, and any failure in the `init_database` transaction
body is likewise re-raised as the original database error after a rollback;
no typed `QueryError`/`SchemaError` wrapper exists in the code. -/
theorem c2_bare_reraise_after_rollback {ρ : Type}
    (stmt : Db → Except DBErr (List ρ × Db)) (fetch : Bool) (c : Conn)
    (steps : List (Db → Except DBErr Db)) (e e2 : DBErr) :
    (stmt c.working = Except.error e →
      execute_query stmt fetch c
        = (.error (.dbError e), ⟨c.committed, c.committed⟩)) ∧
    (runSteps steps c.working = Except.error e2 →
      transact steps c
        = (.error (.dbError e2), ⟨c.committed, c.committed⟩)) := by
  refine ⟨fun h => ?_, fun h => ?_⟩
  · simp [execute_query, h]
  · simp [transact, h]

theorem c2_bare_reraise_after_rollback_witness :
    execute_query (selectPasswordHash "alice") true ⟨emptyDb, emptyDb⟩
        = (.error (.dbError (.noSuchTable "users")), ⟨emptyDb, emptyDb⟩) ∧
    transact [createUsersTable] ⟨emptyDb, emptyDb⟩
        = (.error (.dbError (.noSuchTable "roles")), ⟨emptyDb, emptyDb⟩) := by
  have h := c2_bare_reraise_after_rollback (selectPasswordHash "alice") true
    ⟨emptyDb, emptyDb⟩ [createUsersTable]
    (.noSuchTable "users") (.noSuchTable "roles")
  exact ⟨h.1 rfl, h.2 rfl⟩

/-- C9: `update_contact` and `update_task_status` return True whenever the
underlying UPDATE statement succeeds — including for a contact_id or task_id
matching no existing row — and give no signal distinguishing an existing row
from a nonexistent one: an id matching no row also yields True, with the
table rows left unchanged. -/
theorem c9_updates_give_no_signal
    (c : Conn) (cid tid sid : Nat) (d : ContactData)
    (ct : Table ContactRow) (tt : Table TaskRow)
    (hc : c.working.contacts = some ct)
    (ht : c.working.tasks = some tt)
    (hcfk : fkOk d.assigned_to c.working.users UserRow.user_id = true)
    (htfk : fkOk (some sid) c.working.task_status StatusRow.status_id = true) :
    (update_contact cid d c).1 = .ok true ∧
    (update_task_status tid sid c).1 = .ok true ∧
    (ct.rows.all (fun r => !(r.contact_id == cid)) = true →
      (update_contact cid d c).2.committed.contacts = some ct) ∧
    (tt.rows.all (fun r => !(r.task_id == tid)) = true →
      (update_task_status tid sid c).2.committed.tasks = some tt) := by
  refine ⟨?_, ?_, fun hnone => ?_, fun hnone => ?_⟩
  · simp [update_contact, execute_query, updateContactStmt, hc, hcfk]
  · simp [update_task_status, execute_query, updateTaskStatusStmt, ht, htfk]
  · have hmap := applyContactUpdate_id cid d c.working.now ct.rows hnone
    simp [update_contact, execute_query, updateContactStmt, hc, hcfk, hmap]
  · have hmap := applyTaskStatusUpdate_id tid sid c.working.now tt.rows hnone
    simp [update_task_status, execute_query, updateTaskStatusStmt, ht, htfk, hmap]

theorem c9_updates_give_no_signal_witness :
    (update_contact 42 ⟨"f", "l", none, none, none, none, none⟩ seededConn).1
      = .ok true ∧
    (update_task_status 42 1 seededConn).1 = .ok true ∧
    (update_contact 42 ⟨"f", "l", none, none, none, none, none⟩ seededConn).2.committed.contacts
      = some ⟨[], 1⟩ ∧
    (update_task_status 42 1 seededConn).2.committed.tasks = some ⟨[], 1⟩ := by
  have h := c9_updates_give_no_signal seededConn 42 42 1
    ⟨"f", "l", none, none, none, none, none⟩ ⟨[], 1⟩ ⟨[], 1⟩
    (by decide) (by decide) (by decide) (by decide)
  exact ⟨h.1, h.2.1, h.2.2.1 (by decide), h.2.2.2 (by decide)⟩

/-- C10: `create_role` and `create_task_status` are plain inserts, unlike the
INSERT IGNORE seeds of schema initialization — called with a name that
already exists they raise the unique-constraint database error instead of
being a no-op, and no new row is committed: the transaction is rolled back,
leaving the committed state untouched. -/
theorem c10_plain_insert_duplicate_raises
    (c : Conn) (nameR nameS descR descS : String)
    (rt : Table RoleRow) (st : Table StatusRow)
    (hr : c.working.roles = some rt)
    (hs : c.working.task_status = some st)
    (hrn : rt.rows.any (fun r => r.role_name == nameR) = true)
    (hsn : st.rows.any (fun s => s.status_name == nameS) = true) :
    create_role nameR descR c
        = (.error (.dbError (.duplicateEntry "roles" "role_name")),
           ⟨c.committed, c.committed⟩) ∧
    create_task_status nameS descS c
        = (.error (.dbError (.duplicateEntry "task_status" "status_name")),
           ⟨c.committed, c.committed⟩) := by
  constructor
  · simp [create_role, execute_query, insertRoleStmt, hr, hrn]
  · simp [create_task_status, execute_query, insertStatusStmt, hs, hsn]

theorem c10_plain_insert_duplicate_raises_witness :
    create_role "admin" "dup" seededConn
        = (.error (.dbError (.duplicateEntry "roles" "role_name")),
           ⟨seededConn.committed, seededConn.committed⟩) ∧
    create_task_status "on_hold" "dup" seededConn
        = (.error (.dbError (.duplicateEntry "task_status" "status_name")),
           ⟨seededConn.committed, seededConn.committed⟩) := by
  have hrt : seededConn.working.roles = some ⟨[
      ⟨1, "admin", some "System administrator with full access", 0, 0⟩,
      ⟨2, "manager", some "Team manager with reporting and task assignment capabilities", 0, 0⟩,
      ⟨3, "employee", some "Regular employee with basic access", 0, 0⟩], 4⟩ := by decide
  have hst : seededConn.working.task_status = some ⟨[
      ⟨1, "not_started", some "Task has not been started", 0⟩,
      ⟨2, "in_progress", some "Task is currently being worked on", 0⟩,
      ⟨3, "completed", some "Task has been completed", 0⟩,
      ⟨4, "on_hold", some "Task is temporarily on hold", 0⟩], 5⟩ := by decide
  exact c10_plain_insert_duplicate_raises seededConn "admin" "on_hold" "dup" "dup"
    _ _ hrt hst (by decide) (by decide)

/-! Lemmas about the `init_database` steps, for the idempotence claim. -/

theorem insRole_any_self (now : Nat) (n d : String) (p : Table RoleRow × Option Nat) :
    ((insRoleIgnore now n d p).1.rows.any (fun r => r.role_name == n)) = true := by
  obtain ⟨t, f⟩ := p
  by_cases h : t.rows.any (fun r => r.role_name == n) = true
  · simp [insRoleIgnore, h]
  · simp only [insRoleIgnore]
    rw [if_neg h]
    simp [List.any_append]

theorem insRole_any_mono (now : Nat) (n d : String) (p : Table RoleRow × Option Nat)
    (q : RoleRow → Bool) (h : p.1.rows.any q = true) :
    ((insRoleIgnore now n d p).1.rows.any q) = true := by
  obtain ⟨t, f⟩ := p
  by_cases hc : t.rows.any (fun r => r.role_name == n) = true
  · simpa [insRoleIgnore, hc] using h
  · simp only [insRoleIgnore]
    rw [if_neg hc]
    simp only [List.any_append, Bool.or_eq_true]
    exact Or.inl h

theorem insStatus_any_self (now : Nat) (n d : String) (p : Table StatusRow × Option Nat) :
    ((insStatusIgnore now n d p).1.rows.any (fun s => s.status_name == n)) = true := by
  obtain ⟨t, f⟩ := p
  by_cases h : t.rows.any (fun s => s.status_name == n) = true
  · simp [insStatusIgnore, h]
  · simp only [insStatusIgnore]
    rw [if_neg h]
    simp [List.any_append]

theorem insStatus_any_mono (now : Nat) (n d : String) (p : Table StatusRow × Option Nat)
    (q : StatusRow → Bool) (h : p.1.rows.any q = true) :
    ((insStatusIgnore now n d p).1.rows.any q) = true := by
  obtain ⟨t, f⟩ := p
  by_cases hc : t.rows.any (fun s => s.status_name == n) = true
  · simpa [insStatusIgnore, hc] using h
  · simp only [insStatusIgnore]
    rw [if_neg hc]
    simp only [List.any_append, Bool.or_eq_true]
    exact Or.inl h

theorem insRole_skip (now : Nat) (n d : String) (t : Table RoleRow) (f : Option Nat)
    (h : t.rows.any (fun r => r.role_name == n) = true) :
    insRoleIgnore now n d (t, f) = (t, f) := by
  simp [insRoleIgnore, h]

theorem insStatus_skip (now : Nat) (n d : String) (t : Table StatusRow) (f : Option Nat)
    (h : t.rows.any (fun s => s.status_name == n) = true) :
    insStatusIgnore now n d (t, f) = (t, f) := by
  simp [insStatusIgnore, h]

theorem createRolesTable_spec (db : Db) :
    ∃ t, createRolesTable db = .ok { db with roles := some t } := by
  cases h : db.roles with
  | none => exact ⟨⟨[], 1⟩, by simp [createRolesTable, h]⟩
  | some t =>
    refine ⟨t, ?_⟩
    have he : { db with roles := some t } = db := by
      cases db
      simp_all
    rw [he]
    simp [createRolesTable, h]

theorem createUsersTable_spec (db : Db) (h : db.roles.isSome = true) :
    ∃ t, createUsersTable db = .ok { db with users := some t } := by
  cases hu : db.users with
  | none =>
    obtain ⟨r, hr⟩ := Option.isSome_iff_exists.mp h
    exact ⟨⟨[], 1⟩, by simp [createUsersTable, hu, hr]⟩
  | some t =>
    refine ⟨t, ?_⟩
    have he : { db with users := some t } = db := by
      cases db
      simp_all
    rw [he]
    simp [createUsersTable, hu]

theorem createContactsTable_spec (db : Db) (h : db.users.isSome = true) :
    ∃ t, createContactsTable db = .ok { db with contacts := some t } := by
  cases hc : db.contacts with
  | none =>
    obtain ⟨u, hu⟩ := Option.isSome_iff_exists.mp h
    exact ⟨⟨[], 1⟩, by simp [createContactsTable, hc, hu]⟩
  | some t =>
    refine ⟨t, ?_⟩
    have he : { db with contacts := some t } = db := by
      cases db
      simp_all
    rw [he]
    simp [createContactsTable, hc]

theorem createTaskStatusTable_spec (db : Db) :
    ∃ t, createTaskStatusTable db = .ok { db with task_status := some t } := by
  cases h : db.task_status with
  | none => exact ⟨⟨[], 1⟩, by simp [createTaskStatusTable, h]⟩
  | some t =>
    refine ⟨t, ?_⟩
    have he : { db with task_status := some t } = db := by
      cases db
      simp_all
    rw [he]
    simp [createTaskStatusTable, h]

theorem createTasksTable_spec (db : Db) (h1 : db.users.isSome = true)
    (h2 : db.task_status.isSome = true) :
    ∃ t, createTasksTable db = .ok { db with tasks := some t } := by
  cases ht : db.tasks with
  | none =>
    obtain ⟨u, hu⟩ := Option.isSome_iff_exists.mp h1
    obtain ⟨s, hs⟩ := Option.isSome_iff_exists.mp h2
    exact ⟨⟨[], 1⟩, by simp [createTasksTable, ht, hu, hs]⟩
  | some t =>
    refine ⟨t, ?_⟩
    have he : { db with tasks := some t } = db := by
      cases db
      simp_all
    rw [he]
    simp [createTasksTable, ht]

theorem seedRoles_spec (db : Db) (t : Table RoleRow) (h : db.roles = some t) :
    ∃ t2 L, seedRoles db = .ok { db with roles := some t2, lastInsertId := L } ∧
      rolesSeeded t2 = true := by
  unfold seedRoles
  rw [h]
  refine ⟨_, _, rfl, ?_⟩
  simp only [rolesSeeded, seedRolesList, List.foldl, List.all_cons, List.all_nil,
    Bool.and_eq_true]
  refine ⟨?_, ?_, ?_, trivial⟩
  · exact insRole_any_mono _ _ _ _ _ (insRole_any_mono _ _ _ _ _
      (insRole_any_self _ _ _ _))
  · exact insRole_any_mono _ _ _ _ _ (insRole_any_self _ _ _ _)
  · exact insRole_any_self _ _ _ _

theorem seedStatuses_spec (db : Db) (t : Table StatusRow) (h : db.task_status = some t) :
    ∃ t2 L, seedStatuses db = .ok { db with task_status := some t2, lastInsertId := L } ∧
      statusesSeeded t2 = true := by
  unfold seedStatuses
  rw [h]
  refine ⟨_, _, rfl, ?_⟩
  simp only [statusesSeeded, seedStatusesList, List.foldl, List.all_cons, List.all_nil,
    Bool.and_eq_true]
  refine ⟨?_, ?_, ?_, ?_, trivial⟩
  · exact insStatus_any_mono _ _ _ _ _ (insStatus_any_mono _ _ _ _ _
      (insStatus_any_mono _ _ _ _ _ (insStatus_any_self _ _ _ _)))
  · exact insStatus_any_mono _ _ _ _ _ (insStatus_any_mono _ _ _ _ _
      (insStatus_any_self _ _ _ _))
  · exact insStatus_any_mono _ _ _ _ _ (insStatus_any_self _ _ _ _)
  · exact insStatus_any_self _ _ _ _

theorem runSteps_cons_ok (s : Db → Except DBErr Db) (rest : List (Db → Except DBErr Db))
    (db mid : Db) (h : s db = .ok mid) :
    runSteps (s :: rest) db = runSteps rest mid := by
  simp [runSteps, h]

/-- Running the seven `init_database` statements succeeds from any state and
leaves the database initialized. -/
theorem runSteps_init_establishes (db : Db) :
    ∃ db2, runSteps initSteps db = .ok db2 ∧ Initialized db2 = true := by
  obtain ⟨rt, h1⟩ := createRolesTable_spec db
  obtain ⟨ut, h2⟩ := createUsersTable_spec { db with roles := some rt } (by simp)
  obtain ⟨ct, h3⟩ :=
    createContactsTable_spec { { db with roles := some rt } with users := some ut }
      (by simp)
  obtain ⟨st, h4⟩ := createTaskStatusTable_spec
    { { { db with roles := some rt } with users := some ut } with contacts := some ct }
  obtain ⟨tt, h5⟩ := createTasksTable_spec
    { { { { db with roles := some rt } with users := some ut } with
        contacts := some ct } with task_status := some st } (by simp) (by simp)
  obtain ⟨rt2, L1, h6, hs1⟩ := seedRoles_spec
    { { { { { db with roles := some rt } with users := some ut } with
        contacts := some ct } with task_status := some st } with tasks := some tt }
    rt (by simp)
  obtain ⟨st2, L2, h7, hs2⟩ := seedStatuses_spec
    { { { { { { db with roles := some rt } with users := some ut } with
        contacts := some ct } with task_status := some st } with tasks := some tt }
      with roles := some rt2, lastInsertId := L1 }
    st (by simp)
  refine ⟨{ { { { { { { db with roles := some rt } with users := some ut } with
      contacts := some ct } with task_status := some st } with tasks := some tt }
      with roles := some rt2, lastInsertId := L1 }
      with task_status := some st2, lastInsertId := L2 }, ?_, ?_⟩
  · simp only [initSteps]
    rw [runSteps_cons_ok _ _ _ _ h1, runSteps_cons_ok _ _ _ _ h2,
        runSteps_cons_ok _ _ _ _ h3, runSteps_cons_ok _ _ _ _ h4,
        runSteps_cons_ok _ _ _ _ h5, runSteps_cons_ok _ _ _ _ h6,
        runSteps_cons_ok _ _ _ _ h7]
    rfl
  · simp [Initialized, hs1, hs2]

theorem createRolesTable_id (db : Db) (h : db.roles.isSome = true) :
    createRolesTable db = .ok db := by
  obtain ⟨t, ht⟩ := Option.isSome_iff_exists.mp h
  simp [createRolesTable, ht]

theorem createUsersTable_id (db : Db) (h : db.users.isSome = true) :
    createUsersTable db = .ok db := by
  obtain ⟨t, ht⟩ := Option.isSome_iff_exists.mp h
  simp [createUsersTable, ht]

theorem createContactsTable_id (db : Db) (h : db.contacts.isSome = true) :
    createContactsTable db = .ok db := by
  obtain ⟨t, ht⟩ := Option.isSome_iff_exists.mp h
  simp [createContactsTable, ht]

theorem createTaskStatusTable_id (db : Db) (h : db.task_status.isSome = true) :
    createTaskStatusTable db = .ok db := by
  obtain ⟨t, ht⟩ := Option.isSome_iff_exists.mp h
  simp [createTaskStatusTable, ht]

theorem createTasksTable_id (db : Db) (h : db.tasks.isSome = true) :
    createTasksTable db = .ok db := by
  obtain ⟨t, ht⟩ := Option.isSome_iff_exists.mp h
  simp [createTasksTable, ht]

theorem seedRoles_id (db : Db) (t : Table RoleRow) (h : db.roles = some t)
    (hs : rolesSeeded t = true) : seedRoles db = .ok db := by
  simp only [rolesSeeded, seedRolesList, List.all_cons, List.all_nil,
    Bool.and_eq_true] at hs
  obtain ⟨ha, hm, he, -⟩ := hs
  unfold seedRoles
  rw [h]
  simp only [seedRolesList, List.foldl]
  rw [insRole_skip _ _ _ _ _ ha, insRole_skip _ _ _ _ _ hm, insRole_skip _ _ _ _ _ he]
  have he2 : { db with roles := some t, lastInsertId := db.lastInsertId } = db := by
    cases db
    simp_all
  simp only [Option.getD_none]
  rw [he2]

theorem seedStatuses_id (db : Db) (t : Table StatusRow) (h : db.task_status = some t)
    (hs : statusesSeeded t = true) : seedStatuses db = .ok db := by
  simp only [statusesSeeded, seedStatusesList, List.all_cons, List.all_nil,
    Bool.and_eq_true] at hs
  obtain ⟨h1, h2, h3, h4, -⟩ := hs
  unfold seedStatuses
  rw [h]
  simp only [seedStatusesList, List.foldl]
  rw [insStatus_skip _ _ _ _ _ h1, insStatus_skip _ _ _ _ _ h2,
      insStatus_skip _ _ _ _ _ h3, insStatus_skip _ _ _ _ _ h4]
  have he2 : { db with task_status := some t, lastInsertId := db.lastInsertId } = db := by
    cases db
    simp_all
  simp only [Option.getD_none]
  rw [he2]

/-- On an initialized database the seven `init_database` statements change
nothing. -/
theorem runSteps_init_id (db : Db) (h : Initialized db = true) :
    runSteps initSteps db = .ok db := by
  simp only [Initialized, Bool.and_eq_true] at h
  obtain ⟨⟨⟨⟨hr, hs⟩, hu⟩, hc⟩, ht⟩ := h
  cases hrr : db.roles with
  | none => rw [hrr] at hr; exact absurd hr (by decide)
  | some rt =>
    cases hss : db.task_status with
    | none => rw [hss] at hs; exact absurd hs (by decide)
    | some st =>
      rw [hrr] at hr
      rw [hss] at hs
      simp only [initSteps]
      rw [runSteps_cons_ok _ _ _ _ (createRolesTable_id db (by simp [hrr])),
          runSteps_cons_ok _ _ _ _ (createUsersTable_id db hu),
          runSteps_cons_ok _ _ _ _ (createContactsTable_id db hc),
          runSteps_cons_ok _ _ _ _ (createTaskStatusTable_id db (by simp [hss])),
          runSteps_cons_ok _ _ _ _ (createTasksTable_id db ht),
          runSteps_cons_ok _ _ _ _ (seedRoles_id db rt hrr hr),
          runSteps_cons_ok _ _ _ _ (seedStatuses_id db st hss hs)]
      rfl

/-- `init_database` reaches a fixed point after one run. -/
theorem init_database_fixed (c : Conn) :
    init_database ((init_database c).2) = (.ok (), (init_database c).2) := by
  obtain ⟨db2, h, hInit⟩ := runSteps_init_establishes c.working
  have h1 : init_database c = (.ok (), ⟨db2, db2⟩) := by
    simp [init_database, transact, h]
  rw [h1]
  simp [init_database, transact, runSteps_init_id db2 hInit]

/-- C4: Schema-initialization idempotence — `init_database` succeeds from any
starting state, running it any number N of times produces exactly the same
database state as running it once (no duplicate reference rows and no error
on repeated runs), and on a fresh database it seeds exactly the three roles
and the four task statuses, matched by unique name. -/
theorem c4_init_database_idempotent (c : Conn) (n : Nat) :
    (init_database c).1 = .ok () ∧
    (fun k => (init_database k).2)^[n] ((init_database c).2) = (init_database c).2 ∧
    seededConn.committed.roles.map (fun t => t.rows.map RoleRow.role_name)
      = some ["admin", "manager", "employee"] ∧
    seededConn.committed.task_status.map (fun t => t.rows.map StatusRow.status_name)
      = some ["not_started", "in_progress", "completed", "on_hold"] := by
  refine ⟨?_, ?_, by decide, by decide⟩
  · obtain ⟨db2, h, -⟩ := runSteps_init_establishes c.working
    simp [init_database, transact, h]
  · apply Function.iterate_fixed
    rw [init_database_fixed c]

/-! Lemmas about the bcrypt model and the password round trip. -/

theorem bcrypt_extractSalt_hashpw (p s : String) (hs : s.length = 29) :
    bcrypt_extractSalt (bcrypt_hashpw p s) = s := by
  obtain ⟨sd⟩ := s
  obtain ⟨pd⟩ := p
  apply String.ext
  show ((⟨sd⟩ ++ ⟨pd⟩ : String)).data.take 29 = sd
  rw [String.data_append]
  show (sd ++ pd).take 29 = sd
  have h29 : sd.length = 29 := hs
  rw [← h29, List.take_left]

theorem bcrypt_checkpw_correct (p s : String) (hs : s.length = 29) :
    bcrypt_checkpw p (bcrypt_hashpw p s) = true := by
  unfold bcrypt_checkpw
  rw [bcrypt_extractSalt_hashpw p s hs]
  simp

theorem bcrypt_hashpw_inj (p q s : String)
    (h : bcrypt_hashpw p s = bcrypt_hashpw q s) : p = q := by
  unfold bcrypt_hashpw at h
  have h2 := congrArg String.data h
  rw [String.data_append, String.data_append] at h2
  exact String.ext (List.append_cancel_left h2)

theorem bcrypt_checkpw_wrong (p q s : String) (hs : s.length = 29) (hne : q ≠ p) :
    bcrypt_checkpw q (bcrypt_hashpw p s) = false := by
  unfold bcrypt_checkpw
  rw [bcrypt_extractSalt_hashpw p s hs]
  simp only [decide_eq_false_iff_not]
  intro h
  exact hne (bcrypt_hashpw_inj q p s h)

theorem bcrypt_hashpw_ne_password (p s : String) (hs : s.length = 29) :
    bcrypt_hashpw p s ≠ p := by
  intro h
  have h2 := congrArg String.length h
  rw [bcrypt_hashpw, String.length_append, hs] at h2
  omega

theorem password_ne_append_x (p : String) : p ≠ p ++ "x" := by
  intro h
  have h2 := congrArg String.length h
  rw [String.length_append] at h2
  have hx : ("x" : String).length = 1 := rfl
  omega

theorem filter_username_nil (username : String) (l : List UserRow)
    (h : l.any (fun u => u.username == username) = false) :
    l.filter (fun u => u.username == username) = [] := by
  simp only [List.filter_eq_nil_iff]
  intro a ha
  simp only [List.any_eq_false] at h
  exact h a ha

/-- C1: Password round trip — a user created via `create_user` with plaintext
password P verifies with P and fails to verify with P ++ "x"; the stored
password_hash never equals P in plaintext; and for a username with no stored
row `verify_password` returns False rather than raising. -/
theorem c1_password_roundtrip
    (c : Conn) (username password email salt : String) (role_id : Nat)
    (manager_id : Option Nat) (ut : Table UserRow)
    (hu : c.working.users = some ut)
    (hname : ut.rows.any (fun u => u.username == username) = false)
    (hmail : ut.rows.any (fun u => u.email == email) = false)
    (hrole : fkOk (some role_id) c.working.roles RoleRow.role_id = true)
    (hmgr : fkOk manager_id c.working.users UserRow.user_id = true)
    (hsalt : salt.length = 29) :
    (create_user username password email role_id manager_id salt c).1
        = .ok ut.nextId ∧
    (verify_password username password
        (create_user username password email role_id manager_id salt c).2).1
        = .ok true ∧
    (verify_password username (password ++ "x")
        (create_user username password email role_id manager_id salt c).2).1
        = .ok false ∧
    (∀ t2, (create_user username password email role_id manager_id salt c).2.committed.users
          = some t2 →
        ∀ u ∈ t2.rows, u.username = username → u.password_hash ≠ password) ∧
    (∀ (c3 : Conn) (t3 : Table UserRow) (v pw : String),
        c3.working.users = some t3 →
        t3.rows.any (fun u => u.username == v) = false →
        verify_password v pw c3 = (.ok false, c3)) := by
  have hins : insertUserStmt username (bcrypt_hashpw password salt) email (some role_id)
      manager_id c.working = .ok ([], { c.working with
        users := some ⟨ut.rows ++ [⟨ut.nextId, username, bcrypt_hashpw password salt,
          email, some role_id, manager_id, true, c.working.now, c.working.now⟩],
          ut.nextId + 1⟩,
        lastInsertId := ut.nextId }) := by
    have hmgr2 : fkOk manager_id (some ut) UserRow.user_id = true := hu ▸ hmgr
    simp [insertUserStmt, hu, hname, hmail, hrole, hmgr2]
  have hcreate : create_user username password email role_id manager_id salt c
      = (.ok ut.nextId, ⟨{ c.working with
          users := some ⟨ut.rows ++ [⟨ut.nextId, username, bcrypt_hashpw password salt,
            email, some role_id, manager_id, true, c.working.now, c.working.now⟩],
            ut.nextId + 1⟩,
          lastInsertId := ut.nextId },
        { c.working with
          users := some ⟨ut.rows ++ [⟨ut.nextId, username, bcrypt_hashpw password salt,
            email, some role_id, manager_id, true, c.working.now, c.working.now⟩],
            ut.nextId + 1⟩,
          lastInsertId := ut.nextId }⟩) := by
    simp [create_user, execute_query, hins, lastInsertIdStmt, pyIndex0]
  have hfilter : (ut.rows ++ [(⟨ut.nextId, username, bcrypt_hashpw password salt,
      email, some role_id, manager_id, true, c.working.now, c.working.now⟩ : UserRow)]).filter
        (fun u => u.username == username)
      = [⟨ut.nextId, username, bcrypt_hashpw password salt,
          email, some role_id, manager_id, true, c.working.now, c.working.now⟩] := by
    rw [List.filter_append, filter_username_nil username ut.rows hname]
    simp
  have hverify : ∀ pw : String,
      (verify_password username pw
        (create_user username password email role_id manager_id salt c).2).1
      = .ok (bcrypt_checkpw pw (bcrypt_hashpw password salt)) := by
    intro pw
    rw [hcreate]
    simp only [verify_password, execute_query, selectPasswordHash, hfilter]
    simp
  refine ⟨?_, ?_, ?_, ?_, ?_⟩
  · rw [hcreate]
  · rw [hverify password, bcrypt_checkpw_correct password salt hsalt]
  · rw [hverify (password ++ "x"),
        bcrypt_checkpw_wrong password (password ++ "x") salt hsalt
          (fun h => password_ne_append_x password h.symm)]
  · intro t2 ht2 u hu2 hname2
    rw [hcreate] at ht2
    simp only at ht2
    cases ht2
    rcases List.mem_append.mp hu2 with hold | hnew
    · exfalso
      simp only [List.any_eq_false] at hname
      exact hname u hold (by simp [hname2])
    · rcases List.mem_singleton.mp hnew with rfl
      exact bcrypt_hashpw_ne_password password salt hsalt
  · intro c3 t3 v pw h3 hany
    simp [verify_password, execute_query, selectPasswordHash, h3,
      filter_username_nil v t3.rows hany]

theorem c1_password_roundtrip_witness :
    (create_user "alice" "pw" "a@x" 1 none demoSalt seededConn).1 = .ok 1 ∧
    (verify_password "alice" "pw"
        (create_user "alice" "pw" "a@x" 1 none demoSalt seededConn).2).1 = .ok true ∧
    (verify_password "alice" ("pw" ++ "x")
        (create_user "alice" "pw" "a@x" 1 none demoSalt seededConn).2).1 = .ok false := by
  have h := c1_password_roundtrip seededConn "alice" "pw" "a@x" demoSalt 1 none
    ⟨[], 1⟩ (by decide) (by decide) (by decide) (by decide) (by decide) (by decide)
  exact ⟨h.1, h.2.1, h.2.2.1⟩

/-! Theorems about `get_user` and `get_tasks_by_user`. -/

/-- C5 is false as stated: in `nullRoleDb` a user row with user_id 1 exists
(its role_id is NULL, which the users DDL permits and the foreign key
accepts), yet `get_user 1` returns None because the inner join against roles
drops the row — where the claim promises a record for every existing user
id. -/
theorem c5_counterexample :
    nullRoleDb.users.map (fun t => t.rows.map UserRow.user_id) = some [1] ∧
    (get_user 1 ⟨nullRoleDb, nullRoleDb⟩).1 = .ok none := by
  exact ⟨by decide, by decide⟩

/-- C5 (amended): `get_user` returns a record whose role_name equals the
role_name of the referenced Role row for every user id whose row carries a
non-NULL role reference (the foreign key guarantees the referenced role
exists); it returns None rather than raising for an id with no user row; and
it also returns None for an existing user whose role_id is NULL, because the
inner join drops such a row. -/
theorem c5_get_user_role_join
    (c : Conn) (uid : Nat) (ut : Table UserRow) (rt : Table RoleRow)
    (hu : c.working.users = some ut) (hr : c.working.roles = some rt) :
    (∀ u r rest,
        ut.rows.filter (fun x => x.user_id == uid) = [u] →
        rt.rows.filter (fun x => u.role_id == some x.role_id) = r :: rest →
        (get_user uid c).1 = .ok (some ⟨u.user_id, u.username, u.password_hash,
          u.email, u.role_id, u.manager_id, u.is_active, u.created_at,
          u.updated_at, r.role_name⟩)) ∧
    (ut.rows.filter (fun x => x.user_id == uid) = [] →
        (get_user uid c).1 = .ok none) ∧
    (∀ u, ut.rows.filter (fun x => x.user_id == uid) = [u] → u.role_id = none →
        (get_user uid c).1 = .ok none) := by
  refine ⟨fun u r rest hf hrf => ?_, fun hf => ?_, fun u hf hnone => ?_⟩
  · simp [get_user, execute_query, getUserStmt, hu, hr, hf, hrf]
  · simp [get_user, execute_query, getUserStmt, hu, hr, hf]
  · have hbeq : ∀ y : Nat, ((none : Option Nat) == some y) = false := fun y => rfl
    simp [get_user, execute_query, getUserStmt, hu, hr, hf, hnone, hbeq]

theorem c5_get_user_role_join_witness :
    (get_user 1 (create_user "alice" "pw" "a@x" 1 none demoSalt seededConn).2).1
      = .ok (some ⟨1, "alice", "$2b$12$abcdefghijklmnopqrstuvpw", "a@x", some 1,
          none, true, 0, 0, "admin"⟩) ∧
    (get_user 99 (create_user "alice" "pw" "a@x" 1 none demoSalt seededConn).2).1
      = .ok none := by
  have hw := c5_get_user_role_join
    (create_user "alice" "pw" "a@x" 1 none demoSalt seededConn).2 1
    ⟨[⟨1, "alice", "$2b$12$abcdefghijklmnopqrstuvpw", "a@x", some 1, none,
       true, 0, 0⟩], 2⟩
    ⟨[⟨1, "admin", some "System administrator with full access", 0, 0⟩,
      ⟨2, "manager", some "Team manager with reporting and task assignment capabilities", 0, 0⟩,
      ⟨3, "employee", some "Regular employee with basic access", 0, 0⟩], 4⟩
    (by decide) (by decide)
  have h99 := c5_get_user_role_join
    (create_user "alice" "pw" "a@x" 1 none demoSalt seededConn).2 99
    ⟨[⟨1, "alice", "$2b$12$abcdefghijklmnopqrstuvpw", "a@x", some 1, none,
       true, 0, 0⟩], 2⟩
    ⟨[⟨1, "admin", some "System administrator with full access", 0, 0⟩,
      ⟨2, "manager", some "Team manager with reporting and task assignment capabilities", 0, 0⟩,
      ⟨3, "employee", some "Regular employee with basic access", 0, 0⟩], 4⟩
    (by decide) (by decide)
  exact ⟨hw.1 ⟨1, "alice", "$2b$12$abcdefghijklmnopqrstuvpw", "a@x", some 1, none,
      true, 0, 0⟩
      ⟨1, "admin", some "System administrator with full access", 0, 0⟩ []
      (by decide) (by decide),
    h99.2.1 (by decide)⟩

/-- C6 (code defect): the users table created by `init_database` has no
first_name or last_name column, yet both branches of `get_tasks_by_user`
project CONCAT(u.first_name, ' ', u.last_name) from the joined users row, so
the statement fails with an unknown-column database error on every call —
shown on a seeded database where user 1 is assignee and user 2 assigner of
one task, where the claim expects the task lists with display names, ordered
by due date. -/
theorem c6_get_tasks_by_user_unknown_column :
    taskDemoConn.working.tasks.map (fun t =>
        t.rows.map (fun r => (r.assigned_to, r.assigned_by))) = some [(some 1, some 2)] ∧
    (get_tasks_by_user 1 false taskDemoConn).1
        = .error (.dbError (.unknownColumn "first_name")) ∧
    (get_tasks_by_user 2 true taskDemoConn).1
        = .error (.dbError (.unknownColumn "first_name")) ∧
    usersColumns.contains "first_name" = false ∧
    usersColumns.contains "last_name" = false := by
  exact ⟨by decide, by decide, by decide, by decide, by decide⟩

/-! Theorems about the connection manager. -/

theorem connect_inv (w w2 : ConnWorld) (ok : Bool) (hInv : w.Inv)
    (h : w.connect ok = .ok w2) : w2.Inv := by
  unfold ConnWorld.connect at h
  by_cases hl : w.is_live = true
  · rw [if_pos hl] at h
    cases h
    exact hInv
  · rw [if_neg hl] at h
    cases ok with
    | false => exact absurd h (by simp)
    | true =>
      simp only [if_true] at h
      cases h
      intro i hi
      rcases lt_trichotomy i w.handles.length with hlt | heq | hgt
      · have hold : w.handles.getD i false = true := by
          rw [← List.getD_append w.handles [true] false i hlt]
          exact hi
        exfalso
        apply hl
        unfold ConnWorld.is_live
        rw [hInv i hold]
        exact hold
      · simp [heq]
      · exfalso
        have : (w.handles ++ [true]).getD i false = false := by
          apply List.getD_eq_default
          simp only [List.length_append, List.length_singleton]
          omega
        rw [this] at hi
        exact absurd hi (by decide)

theorem set_false_getD_self (l : List Bool) (n : Nat) :
    (l.set n false).getD n false = false := by
  by_cases hrange : n < l.length
  · simp [List.getD_eq_getElem?_getD, List.getElem?_set_self', hrange]
  · apply List.getD_eq_default
    simp only [List.length_set]
    omega

theorem set_getD_ne (l : List Bool) (n i : Nat) (a : Bool) (h : n ≠ i) :
    (l.set n a).getD i false = l.getD i false := by
  simp [List.getD_eq_getElem?_getD, List.getElem?_set_ne h]

theorem is_live_iff (w : ConnWorld) :
    w.is_live = true ↔
      ∃ j, w.self_connection = some j ∧ w.handles.getD j false = true := by
  unfold ConnWorld.is_live
  cases hs : w.self_connection with
  | none => simp
  | some j => simp

theorem disconnect_inv (w : ConnWorld) (hInv : w.Inv) : w.disconnect.Inv := by
  cases hs : w.self_connection with
  | none =>
    have hd : w.disconnect = w := by
      unfold ConnWorld.disconnect
      rw [hs]
    rw [hd]
    exact hInv
  | some h =>
    by_cases hlive : w.handles.getD h false = true
    · have hd : w.disconnect = ⟨w.self_connection, w.handles.set h false⟩ := by
        unfold ConnWorld.disconnect
        rw [hs]
        simp only [hlive, if_true]
      rw [hd]
      intro i hi
      by_cases hih : i = h
      · exfalso
        subst hih
        rw [set_false_getD_self] at hi
        exact absurd hi (by decide)
      · have hold : w.handles.getD i false = true := by
          rw [set_getD_ne w.handles h i false (fun hc => hih hc.symm)] at hi
          exact hi
        exact hInv i hold
    · have hd : w.disconnect = w := by
        unfold ConnWorld.disconnect
        rw [hs]
        show (if w.handles.getD h false = true then
          (⟨some h, w.handles.set h false⟩ : ConnWorld) else w) = w
        rw [if_neg hlive]
      rw [hd]
      exact hInv

theorem dropHandle_inv (w : ConnWorld) (h : Nat) (hInv : w.Inv) :
    (w.dropHandle h).Inv := by
  intro i hi
  unfold ConnWorld.dropHandle at hi
  by_cases hih : i = h
  · exfalso
    subst hih
    rw [set_false_getD_self] at hi
    exact absurd hi (by decide)
  · have hold : w.handles.getD i false = true := by
      rw [set_getD_ne w.handles h i false (fun hc => hih hc.symm)] at hi
      exact hi
    exact hInv i hold

theorem get_connection_spec (w : ConnWorld) (ok : Bool) (hInv : w.Inv) :
    (∀ r, w.get_connection ok = .ok r →
        r.2.Inv ∧ ∃ j, r.1 = some j ∧ r.2.handles.getD j false = true) ∧
    (w.is_live = true → w.get_connection ok = .ok (w.self_connection, w)) := by
  constructor
  · intro r hr
    unfold ConnWorld.get_connection at hr
    by_cases hl : w.is_live = true
    · rw [if_pos hl] at hr
      cases hr
      refine ⟨hInv, ?_⟩
      obtain ⟨j, hj1, hj2⟩ := (is_live_iff w).mp hl
      exact ⟨j, hj1, hj2⟩
    · rw [if_neg hl] at hr
      cases hc : w.connect ok with
      | error e => rw [hc] at hr; exact absurd hr (by simp)
      | ok w2 =>
        rw [hc] at hr
        cases hr
        refine ⟨connect_inv w w2 ok hInv hc, ?_⟩
        unfold ConnWorld.connect at hc
        rw [if_neg hl] at hc
        cases ok with
        | false => exact absurd hc (by simp)
        | true =>
          simp only [if_true] at hc
          cases hc
          refine ⟨w.handles.length, rfl, ?_⟩
          rw [List.getD_append_right w.handles [true] false w.handles.length (le_refl _)]
          simp
  · intro hl
    unfold ConnWorld.get_connection
    rw [if_pos hl]

/-- C7: Connection-manager singleton — constructing `DatabaseConnection`
again returns the stored instance and allocates nothing; the
at-most-one-live-handle invariant (every live handle is the one the singleton
holds) is preserved by `connect`, `disconnect`, `get_connection` and by the
engine dropping a handle; `get_connection` returns a live handle whenever it
returns at all; and it opens a new connection only when the held handle is
absent or reports itself disconnected — when the handle is live the world,
including the handle pool, is returned unchanged. -/
theorem c7_singleton_connection
    (p : PyProcess) (w w2 : ConnWorld) (ok : Bool) (h : Nat) (hInv : w.Inv) :
    dcNew ((dcNew p).2) = ((dcNew p).1, (dcNew p).2) ∧
    (w.connect ok = .ok w2 → w2.Inv) ∧
    w.disconnect.Inv ∧
    (w.dropHandle h).Inv ∧
    (∀ r, w.get_connection ok = .ok r →
        r.2.Inv ∧ ∃ j, r.1 = some j ∧ r.2.handles.getD j false = true) ∧
    (w.is_live = true → w.get_connection ok = .ok (w.self_connection, w)) := by
  refine ⟨?_, fun hc => connect_inv w w2 ok hInv hc, disconnect_inv w hInv,
    dropHandle_inv w h hInv, (get_connection_spec w ok hInv).1,
    (get_connection_spec w ok hInv).2⟩
  cases hps : p.instSlot with
  | some i => simp [dcNew, hps]
  | none => simp [dcNew, hps]

theorem c7_singleton_connection_witness :
    dcNew ((dcNew ⟨none, 0⟩).2) = ((dcNew ⟨none, 0⟩).1, (dcNew ⟨none, 0⟩).2) ∧
    ConnWorld.start.get_connection true = .ok (some 0, ⟨some 0, [true]⟩) ∧
    (⟨some 0, [true]⟩ : ConnWorld).Inv := by
  have hInv : ConnWorld.start.Inv := by
    intro i hi
    simp [ConnWorld.start] at hi
  have H := c7_singleton_connection ⟨none, 0⟩ ConnWorld.start ⟨some 0, [true]⟩ true 0 hInv
  refine ⟨H.1, rfl, ?_⟩
  exact (H.2.2.2.2.1 (some 0, ⟨some 0, [true]⟩) rfl).1

/-! Theorem about default values. -/

/-- C8: Default values — `create_task` called without an explicit priority
stores priority "medium" for the new task row, and `create_user` called
without a manager reference stores a NULL manager reference for the new user
row and does not raise. -/
theorem c8_defaults
    (c : Conn) (d : TaskData)
    (username password email salt : String) (role_id : Nat)
    (tt : Table TaskRow) (ut : Table UserRow)
    (htt : c.working.tasks = some tt)
    (hut : c.working.users = some ut)
    (hpr : d.priority = none)
    (hfk1 : fkOk (some d.assigned_to) c.working.users UserRow.user_id = true)
    (hfk2 : fkOk (some d.assigned_by) c.working.users UserRow.user_id = true)
    (hfk3 : fkOk (some d.status_id) c.working.task_status StatusRow.status_id = true)
    (hname : ut.rows.any (fun u => u.username == username) = false)
    (hmail : ut.rows.any (fun u => u.email == email) = false)
    (hrole : fkOk (some role_id) c.working.roles RoleRow.role_id = true) :
    create_task d c = (.ok tt.nextId,
      ⟨{ c.working with
          tasks := some ⟨tt.rows ++ [⟨tt.nextId, d.title, d.description,
            some d.assigned_to, some d.assigned_by, some d.due_date,
            some d.status_id, "medium", c.working.now, c.working.now⟩],
            tt.nextId + 1⟩,
          lastInsertId := tt.nextId },
        { c.working with
          tasks := some ⟨tt.rows ++ [⟨tt.nextId, d.title, d.description,
            some d.assigned_to, some d.assigned_by, some d.due_date,
            some d.status_id, "medium", c.working.now, c.working.now⟩],
            tt.nextId + 1⟩,
          lastInsertId := tt.nextId }⟩) ∧
    create_user username password email role_id none salt c = (.ok ut.nextId,
      ⟨{ c.working with
          users := some ⟨ut.rows ++ [⟨ut.nextId, username,
            bcrypt_hashpw password salt, email, some role_id, none, true,
            c.working.now, c.working.now⟩], ut.nextId + 1⟩,
          lastInsertId := ut.nextId },
        { c.working with
          users := some ⟨ut.rows ++ [⟨ut.nextId, username,
            bcrypt_hashpw password salt, email, some role_id, none, true,
            c.working.now, c.working.now⟩], ut.nextId + 1⟩,
          lastInsertId := ut.nextId }⟩) := by
  constructor
  · have hpen : "medium" ∈ priorityEnum := by decide
    have hins : insertTaskStmt d.title d.description d.assigned_to d.assigned_by
        d.due_date d.status_id "medium" c.working = .ok ([], { c.working with
          tasks := some ⟨tt.rows ++ [⟨tt.nextId, d.title, d.description,
            some d.assigned_to, some d.assigned_by, some d.due_date,
            some d.status_id, "medium", c.working.now, c.working.now⟩],
            tt.nextId + 1⟩,
          lastInsertId := tt.nextId }) := by
      simp [insertTaskStmt, htt, hpen, hfk1, hfk2, hfk3]
    simp [create_task, hpr, execute_query, hins, lastInsertIdStmt, pyIndex0]
  · have hins : insertUserStmt username (bcrypt_hashpw password salt) email
        (some role_id) none c.working = .ok ([], { c.working with
          users := some ⟨ut.rows ++ [⟨ut.nextId, username,
            bcrypt_hashpw password salt, email, some role_id, none, true,
            c.working.now, c.working.now⟩], ut.nextId + 1⟩,
          lastInsertId := ut.nextId }) := by
      have hmgrnone : ∀ t : Option (Table UserRow),
          fkOk none t UserRow.user_id = true := fun t => rfl
      simp [insertUserStmt, hut, hname, hmail, hrole, hmgrnone]
    simp [create_user, execute_query, hins, lastInsertIdStmt, pyIndex0]

theorem c8_defaults_witness :
    (create_task ⟨"t1", none, 1, 2, 5, 1, none⟩ twoUsersConn).1 = .ok 1 ∧
    ((create_task ⟨"t1", none, 1, 2, 5, 1, none⟩ twoUsersConn).2.committed.tasks.map
        (fun t => t.rows.map TaskRow.priority)) = some ["medium"] ∧
    (create_user "carol" "pw3" "c@x" 1 none demoSalt twoUsersConn).1 = .ok 3 ∧
    ((create_user "carol" "pw3" "c@x" 1 none demoSalt twoUsersConn).2.committed.users.map
        (fun t => t.rows.map UserRow.manager_id)) = some [none, none, none] := by
  have h := c8_defaults twoUsersConn ⟨"t1", none, 1, 2, 5, 1, none⟩
    "carol" "pw3" "c@x" demoSalt 1 ⟨[], 1⟩
    ⟨[⟨1, "alice", "$2b$12$abcdefghijklmnopqrstuvpw", "a@x", some 1, none,
        true, 0, 0⟩,
      ⟨2, "bob", "$2b$12$abcdefghijklmnopqrstuvpw2", "b@x", some 1, none,
        true, 0, 0⟩], 3⟩
    (by decide) (by decide) (by decide) (by decide) (by decide) (by decide)
    (by decide) (by decide) (by decide)
  refine ⟨?_, ?_, ?_, ?_⟩
  · rw [h.1]
  · rw [h.1]
    decide
  · rw [h.2]
  · rw [h.2]
    decide

end CRM
